import Mathlib

/-!
Verification of the Gold/Silver shift calculator (src/shift_app.py).

This file shallowly embeds the core logic of the script:
  - the 4-day cycle computation (get_day_number),
  - the Gold/Silver shift decision tables (gold_shift_type, silver_shift_type,
    calc_shift_gold_silver),
  - the strict title parser (parse_event_title_with_reason) together with the
    two regular expressions GOLD_PATTERN / SILVER_PATTERN, modelled as explicit
    recognizer functions over lists of characters,
  - the per-batch partitioning pipeline (title stage, date stage) that splits
    an input row sequence into accepted and rejected rows.

Calendar dates are modelled as proleptic-Gregorian ordinal day numbers (the
value Python's date.toordinal returns); only differences of ordinals enter the
computation, exactly as in the source.  Character classes are modelled over the
ASCII range (the Python patterns are Unicode-aware, but on the ASCII fragment
the two coincide and all fixed tokens of the grammar are ASCII).
-/

namespace ShiftApp

/-! ## DayCycle: get_day_number -/

/-- `ANCHOR_DATE = date(2025, 7, 1)` as a proleptic Gregorian ordinal
(`date(2025, 7, 1).toordinal() = 739433`). -/
def ANCHOR_DATE : Int := 739433

/-- `ANCHOR_DAY_NUM = 2  # July 1, 2025 is Day 2` -/
def ANCHOR_DAY_NUM : Int := 2

/-- `get_day_number` from the source: `(target_dt - ANCHOR_DATE).days` is the
(possibly negative) whole-day difference of ordinals; Python's `%` on a
positive modulus is the always-nonnegative remainder, which is `Int.emod`
(Lean's `%` on `Int`). -/
def get_day_number (target_dt : Int) : Int :=
  (target_dt - ANCHOR_DATE + ANCHOR_DAY_NUM - 1) % 4 + 1

/-! ## ShiftRules: gold_shift_type, silver_shift_type, calc_shift_gold_silver

A Python function that may `raise ValueError(msg)` is modelled as
`Except String String`, the error carrying the exception message. -/

/-- `gold_shift_type` from the source. -/
def gold_shift_type (num : Int) (day_num : Int) : Except String String :=
  if num = 1 then .ok "Early"
  else if 6 ≤ num then .ok "Middle"
  else if num = 3 ∨ num = 5 then
    (if day_num = 1 ∨ day_num = 3 then .ok "Early" else .ok "Middle")
  else if num = 2 ∨ num = 4 then
    (if day_num = 1 ∨ day_num = 3 then .ok "Middle" else .ok "Early")
  else .error ("Invalid/Unhandled Gold number " ++ toString num)

/-- `silver_shift_type` from the source. -/
def silver_shift_type (num : Int) : Except String String :=
  if num = 1 then .ok "Early"
  else if 2 ≤ num then .ok "Middle"
  else .error ("Invalid/Unhandled Silver number " ++ toString num)

/-- Python `str.lower()` (ASCII fragment), character by character. -/
def pyLower (s : String) : String :=
  String.mk (s.toList.map Char.toLower)

/-- `calc_shift_gold_silver` from the source.  The Python body computes
`day_num = get_day_number(target_dt)` first and then branches on
`line.lower()`; `get_day_number` is pure, so inlining it into the Gold branch
is equivalent. -/
def calc_shift_gold_silver (line : String) (num : Int) (target_dt : Int) :
    Except String String :=
  if pyLower line = "gold" then gold_shift_type num (get_day_number target_dt)
  else if pyLower line = "silver" then silver_shift_type num
  else .error "Only Gold/Silver supported in this workflow."

/-! ## Character-level helpers for the title parser

The source uses Python's `str.strip`, `re.search`, `re.match` with the word
classes `\s`, `\d`, `\b` and the flag `re.IGNORECASE`.  These are modelled over
`List Char` on the ASCII fragment:
  - `pyIsSpace` is `\s` (ASCII: space, tab, newline, carriage return, vertical
    tab, form feed),
  - `Char.isDigit` is `\d` (ASCII `0`-`9`),
  - `isWordChar` is the word class behind `\b` (letters, digits, underscore),
  - case-insensitive comparison lowers both sides. -/

/-- Python `\s` on the ASCII range. -/
def pyIsSpace (c : Char) : Bool :=
  c = ' ' || c = '\t' || c = '\n' || c = '\r' || c = Char.ofNat 11 || c = Char.ofNat 12

/-- The word-character class behind the regex `\b` boundary. -/
def isWordChar (c : Char) : Bool :=
  c.isAlphanum || c = '_'

/-- Case-insensitive character equality (models `re.IGNORECASE`). -/
def lowerEq (p c : Char) : Bool :=
  p.toLower = c.toLower

/-- Python `str.strip()`: drop leading and trailing whitespace. -/
def pyStrip (s : List Char) : List Char :=
  ((s.dropWhile pyIsSpace).reverse.dropWhile pyIsSpace).reverse

/-- Case-insensitively match the literal `p` as a prefix of `s`, returning the
rest of `s` after the literal on success. -/
def dropLitCI : List Char → List Char → Option (List Char)
  | [], s => some s
  | _ :: _, [] => none
  | p :: ps, c :: cs => if lowerEq p c then dropLitCI ps cs else none

/-- Does the word `w` match at the head of `s`, with a word boundary after it
(end of string or a non-word character)?  This is `re.match(r"^w\b", s, I)`
for a word `w` of word characters. -/
def matchWordAt : List Char → List Char → Bool
  | [], [] => true
  | [], c :: _ => !isWordChar c
  | _ :: _, [] => false
  | p :: ps, c :: cs => lowerEq p c && matchWordAt ps cs

/-- Scan of `re.search(r"\bw\b", s, I)`: `prev` says whether the character just
before the current position is a word character (false at the start of the
string). -/
def searchWordAux (w : List Char) : Bool → List Char → Bool
  | prev, [] => !prev && matchWordAt w []
  | prev, c :: cs => (!prev && matchWordAt w (c :: cs)) || searchWordAux w (isWordChar c) cs

/-- `re.search(r"\bw\b", s, re.IGNORECASE) is not None` for a word `w`. -/
def searchWord (w s : List Char) : Bool :=
  searchWordAux w false s

def goldWord : List Char := ['g', 'o', 'l', 'd']
def silverWord : List Char := ['s', 'i', 'l', 'v', 'e', 'r']
def amWord : List Char := ['a', 'm']

/-! ## GOLD_PATTERN / SILVER_PATTERN

`GOLD_PATTERN = re.compile(r"^Gold\s+AM(?:\s+(\d+))?$", re.IGNORECASE)` and
`SILVER_PATTERN` likewise with `Silver`.  Both are instances of
`^<roster>\s+AM(?:\s+(\d+))?$`; the recognizer below returns `none` when the
pattern does not match, `some none` when it matches with the number group
absent, and `some (some ds)` when it matches capturing the digit run `ds`.
Greedy maximal munch of `\s+` and `\d+` is equivalent to the regex here
because whitespace, `AM` and end-of-string are mutually exclusive
continuations. -/

/-- Match `^<roster>\s+AM(?:\s+(\d+))?$` (case-insensitive) against `s`. -/
def rosterPatternMatch (roster s : List Char) : Option (Option (List Char)) :=
  match dropLitCI roster s with
  | none => none
  | some r1 =>
    if (r1.takeWhile pyIsSpace).isEmpty then none
    else
      match dropLitCI amWord (r1.dropWhile pyIsSpace) with
      | none => none
      | some r3 =>
        if r3.isEmpty then some none
        else if (r3.takeWhile pyIsSpace).isEmpty then none
        else if ((r3.dropWhile pyIsSpace).takeWhile Char.isDigit).isEmpty then none
        else if ((r3.dropWhile pyIsSpace).dropWhile Char.isDigit).isEmpty then
          some (some ((r3.dropWhile pyIsSpace).takeWhile Char.isDigit))
        else none

/-! ## int() on the captured group -/

/-- Decimal value of a digit run. -/
def digitsVal : List Char → Nat → Nat
  | [], acc => acc
  | c :: cs, acc => digitsVal cs (acc * 10 + (c.toNat - 48))

/-- Python `int(num_str)` restricted to the shapes that can reach it in this
program: it succeeds exactly on nonempty runs of decimal digits (which is all
a `(\d+)` capture can be) and fails (`ValueError`) otherwise. -/
def pyInt (s : List Char) : Option Int :=
  if !s.isEmpty && s.all Char.isDigit then some (digitsVal s 0 : Nat) else none

/-! ## parse_event_title_with_reason

The raw title cell is `None`/NaN, a non-string value, or a string. -/

inductive RawTitle where
  | missing
  | nonText
  | text (s : String)
deriving DecidableEq

/-- A successful parse: `("Gold"/"Silver", num, "Gold 5"/"Silver 1")`. -/
abbrev Parsed := String × Int × String

/-- The rejection reasons of `parse_event_title_with_reason`, one constructor
per `return None, ...` site of the source, with the interpolated text as
payload where the source interpolates. -/
inductive Reason where
  | missingTitle
  | notText
  | emptyTitle
  | notGoldSilver
  | missingAM
  | goldFormatInvalid
  | goldMissingNumber
  | goldNotInt (t : String)
  | goldNotPositive
  | silverFormatInvalid
  | silverNotInt (t : String)
  | silverNotPositive
  | unrecognized
deriving DecidableEq

/-- The exact reason strings of the source (apostrophes written `\x27`). -/
def Reason.text : Reason → String
  | .missingTitle => "Missing event title"
  | .notText => "Event title is not text"
  | .emptyTitle => "Empty event title"
  | .notGoldSilver => "Not a Gold/Silver event"
  | .missingAM => "Missing \x27AM\x27 (expected \x27Gold AM #\x27 or \x27Silver AM [#]\x27)"
  | .goldFormatInvalid => "Gold format invalid (expected \x27Gold AM <number>\x27)"
  | .goldMissingNumber => "Gold missing number (expected \x27Gold AM <number>\x27)"
  | .goldNotInt t => "Gold number is not an integer: \x27" ++ t ++ "\x27"
  | .goldNotPositive => "Gold number must be positive"
  | .silverFormatInvalid =>
      "Silver format invalid (expected \x27Silver AM\x27 or \x27Silver AM <number>\x27)"
  | .silverNotInt t => "Silver number is not an integer: \x27" ++ t ++ "\x27"
  | .silverNotPositive => "Silver number must be positive"
  | .unrecognized => "Unrecognized title format"

/-- The Gold branch of the source parser (after `has_gold` and
`re.match(r"^gold\b", s, I)` have both succeeded). -/
def parseGoldBranch (s : List Char) : Except Reason Parsed :=
  match rosterPatternMatch goldWord s with
  | none => .error .goldFormatInvalid
  | some none => .error .goldMissingNumber
  | some (some numStr) =>
    match pyInt numStr with
    | none => .error (.goldNotInt (String.mk numStr))
    | some num =>
      if num ≤ 0 then .error .goldNotPositive
      else .ok ("Gold", num, "Gold " ++ toString num)

/-- The Silver branch of the source parser (an absent number group defaults to
`num = 1`). -/
def parseSilverBranch (s : List Char) : Except Reason Parsed :=
  match rosterPatternMatch silverWord s with
  | none => .error .silverFormatInvalid
  | some none => .ok ("Silver", 1, "Silver " ++ toString (1 : Int))
  | some (some numStr) =>
    match pyInt numStr with
    | none => .error (.silverNotInt (String.mk numStr))
    | some num =>
      if num ≤ 0 then .error .silverNotPositive
      else .ok ("Silver", num, "Silver " ++ toString num)

/-- The body of `parse_event_title_with_reason` after `s = raw_title.strip()`:
the emptiness check, the `\bgold\b` / `\bsilver\b` / `\bam\b` searches, and the
two roster branches guarded by `has_gold and re.match(r"^gold\b", ...)` (resp.
silver), falling through to `"Unrecognized title format"`. -/
def parseStripped (s : List Char) : Except Reason Parsed :=
  if s.isEmpty then .error .emptyTitle
  else if !(searchWord goldWord s || searchWord silverWord s) then .error .notGoldSilver
  else if !searchWord amWord s then .error .missingAM
  else if searchWord goldWord s && matchWordAt goldWord s then parseGoldBranch s
  else if searchWord silverWord s && matchWordAt silverWord s then parseSilverBranch s
  else .error .unrecognized

/-- `parse_event_title_with_reason` from the source.  The Python
`(tuple, None) / (None, reason)` pair is modelled as `Except Reason Parsed`. -/
def parse_event_title_with_reason : RawTitle → Except Reason Parsed
  | .missing => .error .missingTitle
  | .nonText => .error .notText
  | .text raw => parseStripped (pyStrip raw.toList)

/-! ## parse_any_date and the per-row post-processing -/

/-- `parse_any_date` from the source.  The cell is `None`/NaN (`none`) or a
value whose `str()` is the carried string.  `pd.to_datetime(s, errors="coerce")`
is an external best-effort parser; it enters as the parameter `toDT`, returning
the parsed date as an ordinal (`none` for `NaT`).  The checks the source
performs itself — NaN and empty-after-strip give `None` — are explicit. -/
def parse_any_date (toDT : String → Option Int) : Option String → Option Int
  | none => none
  | some x =>
    if (pyStrip x.toList).isEmpty then none
    else toDT (String.mk (pyStrip x.toList))

/-- `shift_to_lower` from the source: `shift.strip().lower()`. -/
def shift_to_lower (shift : String) : String :=
  String.mk ((pyStrip shift.toList).map Char.toLower)

/-- `shift_to_start_time` from the source. -/
def shift_to_start_time (shift_lower : String) : String :=
  if shift_lower = "early" then "06:45"
  else if shift_lower = "middle" then "08:00"
  else "UNKNOWN"

/-- The per-row shift computation of the pipeline loop:
`calc_shift_gold_silver(str(line), int(num), date)` inside `try`, lowered on
success, and `f"error: {e}"` on exception. -/
def rowShiftResult (t : Parsed) (d : Int) : String :=
  match calc_shift_gold_silver t.1 t.2.1 d with
  | .ok shift => shift_to_lower shift
  | .error e => "error: " ++ e

/-! ## ShiftPipeline: the batch partition

An input row is its title cell and its date cell; pandas row indices are
modelled by processing `rows.enum` (pairs of original position and row).
`df.loc[mask]` is an order-preserving `filter`; `pd.concat([a, b],
ignore_index=True)` is `a ++ b`. -/

structure EventRow where
  event_name : RawTitle
  event_date : Option String
deriving DecidableEq

/-- Did `parse_event_title_with_reason` succeed (the `notna` mask of the
parsed-tuple series)? -/
def parseOk : Except Reason Parsed → Bool
  | .ok _ => true
  | .error _ => false

/-- The per-row title mask `parsed_tuple_series.notna()` on an indexed row. -/
def titleAcc (ir : Nat × EventRow) : Bool :=
  parseOk (parse_event_title_with_reason ir.2.event_name)

/-- The parsed tuple of a row whose title parse succeeded (the unpacking of
the non-null tuples into the `line` / `num` / `clean_event` columns).  The
default is never consulted: it is only applied to rows filtered by
`parseOk`. -/
def parsedOf : Except Reason Parsed → Parsed
  | .ok t => t
  | .error _ => ("", 0, "")

/-- The reason string of a row whose title parse failed (the `reason` column
of `rejected_df`).  The default is never consulted. -/
def reasonOf : Except Reason Parsed → String
  | .error e => e.text
  | .ok _ => ""

/-- `rejected_df` right after the title stage: the rows whose parse failed, in
input order, with their reasons. -/
def rejectedTitleRows (rows : List EventRow) : List (Nat × EventRow × String) :=
  (rows.enum.filter fun ir => !titleAcc ir).map
    fun ir => (ir.1, ir.2, reasonOf (parse_event_title_with_reason ir.2.event_name))

/-- `df_ok` right after the title stage: the rows whose parse succeeded, in
input order, with their parsed tuples. -/
def okTitleRows (rows : List EventRow) : List (Nat × EventRow × Parsed) :=
  (rows.enum.filter titleAcc).map
    fun ir => (ir.1, ir.2, parsedOf (parse_event_title_with_reason ir.2.event_name))

/-- The `bad_dates` mask of the date stage. -/
def dateOk (toDT : String → Option Int) (x : Nat × EventRow × Parsed) : Bool :=
  (parse_any_date toDT x.2.1.event_date).isSome

/-- `bad_df`: title-accepted rows whose date did not parse, annotated with
`"Date could not be parsed"`. -/
def rejectedDateRows (toDT : String → Option Int) (rows : List EventRow) :
    List (Nat × EventRow × String) :=
  ((okTitleRows rows).filter fun x => !dateOk toDT x).map
    fun x => (x.1, x.2.1, "Date could not be parsed")

/-- The final accepted rows: title parse succeeded, date parsed, shift result
and start time computed per row.  The `getD 0` default is never consulted: it
is only applied to rows filtered by `dateOk`. -/
def acceptedRows (toDT : String → Option Int) (rows : List EventRow) :
    List (Nat × EventRow × Parsed × Int × String × String) :=
  ((okTitleRows rows).filter (dateOk toDT)).map fun x =>
    (x.1, x.2.1, x.2.2, (parse_any_date toDT x.2.1.event_date).getD 0,
      rowShiftResult x.2.2 ((parse_any_date toDT x.2.1.event_date).getD 0),
      shift_to_start_time (rowShiftResult x.2.2 ((parse_any_date toDT x.2.1.event_date).getD 0)))

/-- The whole batch pipeline: the accepted rows and
`rejected_df = pd.concat([rejected_df, bad_df])`, title-stage rejections first,
then date-stage rejections. -/
def processBatch (toDT : String → Option Int) (rows : List EventRow) :
    List (Nat × EventRow × Parsed × Int × String × String) × List (Nat × EventRow × String) :=
  (acceptedRows toDT rows, rejectedTitleRows rows ++ rejectedDateRows toDT rows)

/-! ## Theorems: DayCycle (claims C5, C6) -/

/-- C5: for every calendar date `d` (ordinal, including dates strictly before
the anchor), `get_day_number d` lies in `{1,2,3,4}`, and at the anchor date
2025-07-01 it is exactly the anchor index 2. -/
theorem C5_day_index_range_and_anchor (d : Int) :
    (get_day_number d = 1 ∨ get_day_number d = 2 ∨ get_day_number d = 3
      ∨ get_day_number d = 4)
    ∧ get_day_number ANCHOR_DATE = 2 := by
  unfold get_day_number ANCHOR_DATE ANCHOR_DAY_NUM
  omega

/-- C6: `get_day_number` is periodic with period 4 in elapsed days. -/
theorem C6_day_index_periodic (d : Int) : get_day_number (d + 4) = get_day_number d := by
  unfold get_day_number
  omega

/-! ## Theorems: ShiftRules (claims C4, C9) -/

/-- C4: the Gold decision table, row by row: Early for `n = 1`; Middle for
`n ≥ 6`; for `n ∈ {3,5}` Early on day `d ∈ {1,3}` and Middle on `d ∈ {2,4}`;
for `n ∈ {2,4}` Middle on `d ∈ {1,3}` and Early on `d ∈ {2,4}`; and for every
remaining `n` (that is `n ≤ 0`) failure with the invalid-number error. -/
theorem C4_gold_table (n d : Int) :
    (n = 1 → gold_shift_type n d = .ok "Early")
    ∧ (6 ≤ n → gold_shift_type n d = .ok "Middle")
    ∧ ((n = 3 ∨ n = 5) → (d = 1 ∨ d = 3) → gold_shift_type n d = .ok "Early")
    ∧ ((n = 3 ∨ n = 5) → (d = 2 ∨ d = 4) → gold_shift_type n d = .ok "Middle")
    ∧ ((n = 2 ∨ n = 4) → (d = 1 ∨ d = 3) → gold_shift_type n d = .ok "Middle")
    ∧ ((n = 2 ∨ n = 4) → (d = 2 ∨ d = 4) → gold_shift_type n d = .ok "Early")
    ∧ (n ≤ 0 → gold_shift_type n d
        = .error ("Invalid/Unhandled Gold number " ++ toString n)) := by
  unfold gold_shift_type
  refine ⟨?_, ?_, ?_, ?_, ?_, ?_, ?_⟩ <;> intros <;> repeat' split
  all_goals first | rfl | omega

/-- Witness for C4 at the cyclic row `n = 3`, `d = 2`. -/
theorem C4_gold_table_witness :
    (((3 : Int) = 3 ∨ (3 : Int) = 5) ∧ ((2 : Int) = 2 ∨ (2 : Int) = 4))
    ∧ gold_shift_type 3 2 = .ok "Middle" :=
  ⟨⟨Or.inl rfl, Or.inl rfl⟩,
    (C4_gold_table 3 2).2.2.2.1 (Or.inl rfl) (Or.inl rfl)⟩

/-- C9: for the canonical rosters `"Gold"` and `"Silver"` and any number
`n ≥ 1` (as every successful title parse guarantees), `calc_shift_gold_silver`
returns `"Early"` or `"Middle"` on every date: no error branch is
reachable. -/
theorem C9_classification_total (line : String) (n d : Int)
    (hline : line = "Gold" ∨ line = "Silver") (hn : 1 ≤ n) :
    calc_shift_gold_silver line n d = .ok "Early"
    ∨ calc_shift_gold_silver line n d = .ok "Middle" := by
  rcases hline with h | h <;> subst h <;> unfold calc_shift_gold_silver
  · rw [if_pos (by decide)]
    unfold gold_shift_type
    repeat' split
    all_goals first
      | exact Or.inl rfl
      | exact Or.inr rfl
      | omega
  · rw [if_neg (by decide), if_pos (by decide)]
    unfold silver_shift_type
    repeat' split
    all_goals first
      | exact Or.inl rfl
      | exact Or.inr rfl
      | omega

/-- Witness for C9 at `("Gold", 3)` on the anchor date. -/
theorem C9_classification_total_witness :
    (("Gold" = "Gold" ∨ "Gold" = "Silver") ∧ (1 : Int) ≤ 3)
    ∧ (calc_shift_gold_silver "Gold" 3 739433 = .ok "Early"
      ∨ calc_shift_gold_silver "Gold" 3 739433 = .ok "Middle") :=
  ⟨⟨Or.inl rfl, by decide⟩,
    C9_classification_total "Gold" 3 739433 (Or.inl rfl) (by decide)⟩

/-! ## Theorems: TitleParser (claims C1, C2, C7, C10) -/

/-- C7: `"Silver AM"` parses exactly like `"Silver AM 1"`, to
`("Silver", 1, "Silver 1")` (the default `num = 1` is applied inside the
parser), and this parse classifies to Early on every date. -/
theorem C7_silver_default :
    parse_event_title_with_reason (.text "Silver AM")
      = parse_event_title_with_reason (.text "Silver AM 1")
    ∧ parse_event_title_with_reason (.text "Silver AM") = .ok ("Silver", 1, "Silver 1")
    ∧ ∀ d : Int, calc_shift_gold_silver "Silver" 1 d = .ok "Early" := by
  refine ⟨rfl, rfl, fun d => ?_⟩
  unfold calc_shift_gold_silver
  rw [if_neg (by decide), if_pos (by decide)]
  rfl

/-- C1 counterexample: on the title `"Gold AM"` the parser rejects through the
missing-number branch, not the format-invalid branch: `GOLD_PATTERN` makes the
number group optional, so `"Gold AM"` matches the pattern with the group
absent, and the supposedly unreachable missing-number reason is produced. -/
theorem C1_counterexample :
    parse_event_title_with_reason (.text "Gold AM") = .error .goldMissingNumber
    ∧ Reason.goldMissingNumber ≠ Reason.goldFormatInvalid
    ∧ Reason.text Reason.goldMissingNumber ≠ Reason.text Reason.goldFormatInvalid :=
  ⟨rfl, by decide, by decide⟩

/-- C1 (amended): the title `"Gold AM"` is rejected with exactly the reason
string `"Gold missing number (expected 'Gold AM <number>')"`; this branch is
reachable because the pattern's number group is optional. -/
theorem C1_amended :
    parse_event_title_with_reason (.text "Gold AM") = .error .goldMissingNumber
    ∧ Reason.text Reason.goldMissingNumber
      = "Gold missing number (expected \x27Gold AM <number>\x27)" :=
  ⟨rfl, rfl⟩

/-- The pattern the C2 claim words describe: the whole trimmed title is
`Gold AM <digits>` with exactly one space between tokens (case-insensitive).
This is a spec-side definition, written from the claim text, to be compared
with the source's `GOLD_PATTERN` (which allows runs of whitespace). -/
def goldExactOneSpaceForm (s : String) : Bool :=
  match dropLitCI goldWord (pyStrip s.toList) with
  | none => false
  | some r1 =>
    match r1 with
    | ' ' :: r2 =>
      match dropLitCI amWord r2 with
      | none => false
      | some r3 =>
        match r3 with
        | ' ' :: r4 => !r4.isEmpty && r4.all Char.isDigit
        | _ => false
    | _ => false

/-- C2 counterexample: `"Gold  AM 3"` (two spaces) starts with the word gold
and contains the word am, is not of the exactly-one-space form the claim
requires for success, and yet parses successfully: `GOLD_PATTERN` separates
tokens with `\s+`, not a single space. -/
theorem C2_counterexample :
    parse_event_title_with_reason (.text "Gold  AM 3") = .ok ("Gold", 3, "Gold 3")
    ∧ goldExactOneSpaceForm "Gold  AM 3" = false
    ∧ matchWordAt goldWord (pyStrip "Gold  AM 3".toList) = true
    ∧ searchWord amWord (pyStrip "Gold  AM 3".toList) = true :=
  ⟨rfl, rfl, rfl, rfl⟩

/-- A word match at the start of a nonempty word needs a nonempty string. -/
theorem matchWordAt_ne_nil {c : Char} {w s : List Char}
    (h : matchWordAt (c :: w) s = true) : s ≠ [] := by
  cases s with
  | nil => exact absurd h (by simp [matchWordAt])
  | cons a t => exact fun hc => List.noConfusion hc

/-- If a word matches at the very start of the string, `re.search` for it
succeeds (position 0 has no preceding character, hence a boundary). -/
theorem searchWord_of_matchWordAt {w s : List Char} (h : matchWordAt w s = true) :
    searchWord w s = true := by
  unfold searchWord
  cases s with
  | nil => simp [searchWordAux, h]
  | cons a t => simp [searchWordAux, h]

/-- Every character a `takeWhile` keeps satisfies the predicate. -/
theorem takeWhile_all {α : Type} (p : α → Bool) (l : List α) :
    (l.takeWhile p).all p = true := by
  induction l with
  | nil => rfl
  | cons a t ih =>
    rw [List.takeWhile_cons]
    cases hpa : p a
    · rfl
    · simp [hpa, ih]

/-- `int()` succeeds on a nonempty digit run. -/
theorem pyInt_some_of_digits {l : List Char} (h1 : l ≠ [])
    (h2 : l.all Char.isDigit = true) : ∃ n, pyInt l = some n := by
  refine ⟨(digitsVal l 0 : Nat), ?_⟩
  unfold pyInt
  rw [if_pos (by simp [h1, h2])]

/-- A captured number group of `GOLD_PATTERN`/`SILVER_PATTERN` is a nonempty
digit run, so `int()` on it succeeds. -/
theorem rosterPatternMatch_digits {w s ds : List Char}
    (h : rosterPatternMatch w s = some (some ds)) : ∃ n, pyInt ds = some n := by
  unfold rosterPatternMatch at h
  split at h
  next => exact absurd h (by simp)
  next r1 heq1 =>
    split at h
    next => exact absurd h (by simp)
    next =>
      split at h
      next => exact absurd h (by simp)
      next r3 heq2 =>
        split at h
        next => exact absurd h (by simp)
        next =>
          split at h
          next => exact absurd h (by simp)
          next =>
            split at h
            next => exact absurd h (by simp)
            next hX =>
              split at h
              next =>
                injection h with h1
                injection h1 with h2
                subst h2
                exact pyInt_some_of_digits (by simpa using hX) (takeWhile_all _ _)
              next => exact absurd h (by simp)

/-- On a trimmed title that starts with the word gold and contains the word
am, the parser runs exactly the Gold branch. -/
theorem parseStripped_gold {s : List Char}
    (hg : matchWordAt goldWord s = true) (ha : searchWord amWord s = true) :
    parseStripped s = parseGoldBranch s := by
  have hnil : s ≠ [] := matchWordAt_ne_nil hg
  have hgs : searchWord goldWord s = true := searchWord_of_matchWordAt hg
  unfold parseStripped
  simp [hnil, hgs, hg, ha]

/-- A successful Gold-branch parse pins down the pattern match, the captured
number and the result tuple. -/
theorem parseGoldBranch_ok {s : List Char} {res : Parsed}
    (h : parseGoldBranch s = .ok res) :
    ∃ ds n, rosterPatternMatch goldWord s = some (some ds) ∧ pyInt ds = some n
      ∧ 1 ≤ n ∧ res = ("Gold", n, "Gold " ++ toString n) := by
  unfold parseGoldBranch at h
  split at h
  next => exact absurd h (by simp)
  next => exact absurd h (by simp)
  next numStr heq =>
    split at h
    next => exact absurd h (by simp)
    next num hpy =>
      split at h
      next => exact absurd h (by simp)
      next hle =>
        injection h with h1
        exact ⟨numStr, num, heq, hpy, by omega, h1.symm⟩

/-- C2 (amended): for every title whose trimmed form starts with the word
gold (case-insensitive) and contains the word am, the parser succeeds only
when the whole trimmed title matches `Gold\s+AM\s+(\d+)` — one or MORE
whitespace characters between tokens, not exactly one — with a positive
captured number; and whenever `GOLD_PATTERN` does not match the trimmed title
at all, the rejection reason is the format-invalid one. -/
theorem C2_amended (s : String)
    (hg : matchWordAt goldWord (pyStrip s.toList) = true)
    (ha : searchWord amWord (pyStrip s.toList) = true) :
    (∀ res, parse_event_title_with_reason (.text s) = .ok res →
      ∃ ds n, rosterPatternMatch goldWord (pyStrip s.toList) = some (some ds)
        ∧ pyInt ds = some n ∧ 1 ≤ n ∧ res = ("Gold", n, "Gold " ++ toString n))
    ∧ (rosterPatternMatch goldWord (pyStrip s.toList) = none →
      parse_event_title_with_reason (.text s) = .error .goldFormatInvalid) := by
  have key : parse_event_title_with_reason (.text s)
      = parseGoldBranch (pyStrip s.toList) := by
    unfold parse_event_title_with_reason
    exact parseStripped_gold hg ha
  constructor
  · intro res hres
    rw [key] at hres
    exact parseGoldBranch_ok hres
  · intro h0
    rw [key]
    unfold parseGoldBranch
    rw [h0]

/-- Witness for C2 (amended) at the title `"Gold AM x"`, where the pattern
fails and the format-invalid reason is produced. -/
theorem C2_amended_witness :
    (matchWordAt goldWord (pyStrip "Gold AM x".toList) = true
      ∧ searchWord amWord (pyStrip "Gold AM x".toList) = true
      ∧ rosterPatternMatch goldWord (pyStrip "Gold AM x".toList) = none)
    ∧ parse_event_title_with_reason (.text "Gold AM x") = .error .goldFormatInvalid :=
  ⟨⟨rfl, rfl, rfl⟩, (C2_amended "Gold AM x" rfl rfl).2 rfl⟩

/-- The Gold branch never reports a non-integer number: its captured group
always converts. -/
theorem parseGoldBranch_no_notInt (s : List Char) (t : String) :
    parseGoldBranch s ≠ .error (.goldNotInt t)
    ∧ parseGoldBranch s ≠ .error (.silverNotInt t) := by
  unfold parseGoldBranch
  split
  next => exact ⟨by simp, by simp⟩
  next => exact ⟨by simp, by simp⟩
  next numStr heq =>
    split
    next hpy =>
      obtain ⟨n, hn⟩ := rosterPatternMatch_digits heq
      rw [hn] at hpy
      exact absurd hpy (by simp)
    next num hpy =>
      split
      · exact ⟨by simp, by simp⟩
      · exact ⟨by simp, by simp⟩

/-- The Silver branch never reports a non-integer number. -/
theorem parseSilverBranch_no_notInt (s : List Char) (t : String) :
    parseSilverBranch s ≠ .error (.goldNotInt t)
    ∧ parseSilverBranch s ≠ .error (.silverNotInt t) := by
  unfold parseSilverBranch
  split
  next => exact ⟨by simp, by simp⟩
  next => exact ⟨by simp, by simp⟩
  next numStr heq =>
    split
    next hpy =>
      obtain ⟨n, hn⟩ := rosterPatternMatch_digits heq
      rw [hn] at hpy
      exact absurd hpy (by simp)
    next num hpy =>
      split
      · exact ⟨by simp, by simp⟩
      · exact ⟨by simp, by simp⟩

/-- No branch of the stripped-title parser reports a non-integer number. -/
theorem parseStripped_no_notInt (s : List Char) (t : String) :
    parseStripped s ≠ .error (.goldNotInt t)
    ∧ parseStripped s ≠ .error (.silverNotInt t) := by
  unfold parseStripped
  split
  · exact ⟨by simp, by simp⟩
  · split
    · exact ⟨by simp, by simp⟩
    · split
      · exact ⟨by simp, by simp⟩
      · split
        · exact parseGoldBranch_no_notInt s t
        · split
          · exact parseSilverBranch_no_notInt s t
          · exact ⟨by simp, by simp⟩

/-- C10: for every input, the parser never rejects with a reason of the form
`"Gold number is not an integer: '<text>'"` or
`"Silver number is not an integer: '<text>'"`: a captured number group is
always a nonempty run of decimal digits and always converts, so both
non-integer branches are dead code. -/
theorem C10_no_notInt_reason (x : RawTitle) (t : String) :
    parse_event_title_with_reason x ≠ .error (.goldNotInt t)
    ∧ parse_event_title_with_reason x ≠ .error (.silverNotInt t) := by
  cases x with
  | missing =>
    exact ⟨by simp [parse_event_title_with_reason],
      by simp [parse_event_title_with_reason]⟩
  | nonText =>
    exact ⟨by simp [parse_event_title_with_reason],
      by simp [parse_event_title_with_reason]⟩
  | text s => exact parseStripped_no_notInt (pyStrip s.toList) t

/-! ## Theorems: ShiftPipeline (claims C3, C8) -/

/-- Splitting a list by a boolean mask preserves total length. -/
theorem length_filter_split {α : Type} (p : α → Bool) (l : List α) :
    (l.filter p).length + (l.filter fun a => !p a).length = l.length := by
  have h := (List.filter_append_perm p l).length_eq
  simpa using h

/-- Two adjacent blocks of an append commute up to permutation. -/
theorem perm_swap_blocks {α : Type} (a b c : List α) :
    (a ++ (b ++ c)).Perm (b ++ (a ++ c)) := by
  rw [← List.append_assoc, ← List.append_assoc]
  exact List.Perm.append_right c List.perm_append_comm

/-- Original positions of any mask-filtered selection of the indexed rows form
a sublist of `range`. -/
theorem idx_sublist_range (rows : List EventRow) (p : Nat × EventRow → Bool) :
    ((rows.enum.filter p).map Prod.fst).Sublist (List.range rows.length) := by
  have h := List.Sublist.map Prod.fst (List.filter_sublist (p := p) rows.enum)
  rwa [List.enum_map_fst] at h

/-- A sublist of `range` is strictly increasing. -/
theorem pairwise_lt_of_sublist_range {l : List Nat} {n : Nat}
    (h : l.Sublist (List.range n)) : l.Pairwise (· < ·) :=
  List.Pairwise.sublist h (List.pairwise_lt_range n)

/-- The original positions of the title-accepted rows, as a filtered
selection of `rows.enum`. -/
theorem okTitleRows_idx (rows : List EventRow) :
    (okTitleRows rows).map Prod.fst = (rows.enum.filter titleAcc).map Prod.fst := by
  unfold okTitleRows
  rw [List.map_map]
  rfl

/-- The original positions of the title-rejected rows. -/
theorem rejectedTitleRows_idx (rows : List EventRow) :
    (rejectedTitleRows rows).map Prod.fst
      = (rows.enum.filter fun ir => !titleAcc ir).map Prod.fst := by
  unfold rejectedTitleRows
  rw [List.map_map]
  rfl

/-- The original positions of the date-rejected rows. -/
theorem rejectedDateRows_idx (toDT : String → Option Int) (rows : List EventRow) :
    (rejectedDateRows toDT rows).map Prod.fst
      = ((okTitleRows rows).filter fun x => !dateOk toDT x).map Prod.fst := by
  unfold rejectedDateRows
  rw [List.map_map]
  rfl

/-- The original positions of the accepted rows. -/
theorem acceptedRows_idx (toDT : String → Option Int) (rows : List EventRow) :
    (acceptedRows toDT rows).map Prod.fst
      = ((okTitleRows rows).filter (dateOk toDT)).map Prod.fst := by
  unfold acceptedRows
  rw [List.map_map]
  rfl

/-- C8: every batch is partitioned exactly: the accepted and rejected outputs
together have the length of the input, and their original positions together
are a permutation of all input positions — no row is dropped and none is
duplicated. -/
theorem C8_partition_exact (toDT : String → Option Int) (rows : List EventRow) :
    (processBatch toDT rows).1.length + (processBatch toDT rows).2.length = rows.length
    ∧ ((processBatch toDT rows).1.map Prod.fst
        ++ (processBatch toDT rows).2.map Prod.fst).Perm (List.range rows.length) := by
  constructor
  · have h1 := length_filter_split (dateOk toDT) (okTitleRows rows)
    have h2 := length_filter_split titleAcc rows.enum
    have h3 : (okTitleRows rows).length = (rows.enum.filter titleAcc).length := by
      unfold okTitleRows
      rw [List.length_map]
    simp only [processBatch, acceptedRows, rejectedTitleRows, rejectedDateRows,
      List.length_append, List.length_map, List.enum_length] at h1 h2 h3 ⊢
    omega
  · have hswap := perm_swap_blocks
      (((okTitleRows rows).filter (dateOk toDT)).map Prod.fst)
      ((rows.enum.filter fun ir => !titleAcc ir).map Prod.fst)
      (((okTitleRows rows).filter fun x => !dateOk toDT x).map Prod.fst)
    have hdate : (((okTitleRows rows).filter (dateOk toDT)).map Prod.fst
        ++ ((okTitleRows rows).filter fun x => !dateOk toDT x).map Prod.fst).Perm
          ((rows.enum.filter titleAcc).map Prod.fst) := by
      have h := List.Perm.map Prod.fst
        (List.filter_append_perm (dateOk toDT) (okTitleRows rows))
      rw [List.map_append] at h
      exact h.trans (by rw [okTitleRows_idx])
    have htitle : ((rows.enum.filter fun ir => !titleAcc ir).map Prod.fst
        ++ (rows.enum.filter titleAcc).map Prod.fst).Perm (List.range rows.length) := by
      have h := List.Perm.map Prod.fst (List.filter_append_perm titleAcc rows.enum)
      rw [List.map_append, List.enum_map_fst] at h
      exact List.perm_append_comm.trans h
    simp only [processBatch, List.map_append]
    rw [acceptedRows_idx, rejectedTitleRows_idx, rejectedDateRows_idx]
    exact hswap.trans ((hdate.append_left _).trans htitle)

/-- C3 counterexample batch: row 0 has a valid title and an unparseable date,
row 1 an invalid title. -/
def c3Rows : List EventRow :=
  [⟨.text "Gold AM 3", some "N/A"⟩, ⟨.text "Lunch", some "2025-07-01"⟩]

/-- C3 counterexample date parser: behaves like `pd.to_datetime` on the cells
of the batch above — `"N/A"` does not parse. -/
def c3ToDT : String → Option Int :=
  fun s => if s = "N/A" then none else some 739433

/-- C3 counterexample: in the batch above, row 1 is rejected at the title
stage and row 0 at the date stage; the rejected output lists row 1 before
row 0, inverting their input order — the rejected sequence does NOT preserve
relative input order across the two rejection stages. -/
theorem C3_counterexample :
    (processBatch c3ToDT c3Rows).2.map Prod.fst = [1, 0]
    ∧ ¬ ((processBatch c3ToDT c3Rows).2.map Prod.fst).Pairwise (· < ·) := by
  constructor
  · rfl
  · rw [show (processBatch c3ToDT c3Rows).2.map Prod.fst = [1, 0] from rfl]
    simp

/-- C3 (amended): the accepted output preserves the relative input order of
its rows; the rejected output is the title-stage rejections followed by the
date-stage rejections, and each of those two groups internally preserves the
relative input order — but a title-stage rejection always precedes a
date-stage rejection regardless of input order. -/
theorem C3_amended_order (toDT : String → Option Int) (rows : List EventRow) :
    (processBatch toDT rows).2 = rejectedTitleRows rows ++ rejectedDateRows toDT rows
    ∧ ((processBatch toDT rows).1.map Prod.fst).Pairwise (· < ·)
    ∧ ((rejectedTitleRows rows).map Prod.fst).Pairwise (· < ·)
    ∧ ((rejectedDateRows toDT rows).map Prod.fst).Pairwise (· < ·) := by
  have hOk : ((okTitleRows rows).map Prod.fst).Sublist (List.range rows.length) := by
    rw [okTitleRows_idx]
    exact idx_sublist_range rows titleAcc
  have hAcc : ((acceptedRows toDT rows).map Prod.fst).Sublist (List.range rows.length) := by
    rw [acceptedRows_idx]
    exact (List.Sublist.map Prod.fst (List.filter_sublist _)).trans hOk
  have hRejT : ((rejectedTitleRows rows).map Prod.fst).Sublist (List.range rows.length) := by
    rw [rejectedTitleRows_idx]
    exact idx_sublist_range rows _
  have hRejD : ((rejectedDateRows toDT rows).map Prod.fst).Sublist
      (List.range rows.length) := by
    rw [rejectedDateRows_idx]
    exact (List.Sublist.map Prod.fst (List.filter_sublist _)).trans hOk
  exact ⟨rfl, pairwise_lt_of_sublist_range hAcc, pairwise_lt_of_sublist_range hRejT,
    pairwise_lt_of_sublist_range hRejD⟩

end ShiftApp
